import Mathlib

/-!
Shallow embedding of the semantic web-search cache of the
Live_Sports_Chat_bot repository.

The embedded code lives in:
  * `src/utils/cache_utils.py` — `load_faiss_cache`, `get_from_cache`,
    `add_to_cache` (FAISS `IndexFlatIP` index, id→data mapping, entry files);
  * `src/utils/web_search.py` — `get_search_results_with_cache` (the
    cache coordinator, called `resolve` in the specification);
  * `src/utils/embedding_utils.py` — `get_embedding` (external call,
    modelled as an oracle);
  * `src/config.py` — `CACHE_SIMILARITY_THRESHOLD` and the cache paths.

Modelling conventions:
  * Python float arithmetic is idealized as real arithmetic (`ℝ`).
  * Python dicts become association lists with python-dict update
    semantics (`dictInsert` replaces the value of an existing key in
    place, otherwise appends; keys stay unique when they start unique).
  * The FAISS index is the list of its row vectors, row `i` at position
    `i`; `faiss.normalize_L2` and `IndexFlatIP.search` are embedded as
    `normalizeL2` and `top1` below.
  * External effects (the Gemini embedding call, the Selenium live
    search, `time.time()`, SHA-1 hashing, `"%.4f"` float formatting) are
    oracle fields of an `Env` record: they are outside this repository.
  * The in-place mutation of the caller's query vector by
    `faiss.normalize_L2` inside `get_from_cache` is made explicit: the
    lookup returns the vector object the caller is left holding, and the
    coordinator hands exactly that vector to `add_to_cache`, as the
    Python aliasing does.
  * Counters `embedCalls` / `liveCalls` in `ResolveResult` record how
    many times the coordinator invoked `get_embedding` respectively
    `_perform_web_search_and_extract` during the call; they instrument
    the call sites and change no behaviour.
-/

namespace SportsCache

/-- Python-dict lookup `d.get(k)` on an association list. -/
def dictLookup {κ α : Type} [DecidableEq κ] (k : κ) : List (κ × α) → Option α
  | [] => none
  | (k', v) :: rest => if k' = k then some v else dictLookup k rest

/-- Python `k in d`. -/
def dictContains {κ α : Type} [DecidableEq κ] (k : κ) (d : List (κ × α)) : Bool :=
  (dictLookup k d).isSome

/-- Python-dict assignment `d[k] = v`: replaces the value at an existing
key in place, otherwise appends a new binding at the end. -/
def dictInsert {κ α : Type} [DecidableEq κ] (k : κ) (v : α) : List (κ × α) → List (κ × α)
  | [] => [(k, v)]
  | (k', v') :: rest => if k' = k then (k, v) :: rest else (k', v') :: dictInsert k v rest

/-- Python `d.pop(k, None)`: removes the binding for `k` when present. -/
def dictPop {κ α : Type} [DecidableEq κ] (k : κ) : List (κ × α) → List (κ × α)
  | [] => []
  | (k', v') :: rest => if k' = k then dictPop k rest else (k', v') :: dictPop k rest

/-- An embedding vector (numpy float32 array, idealized over `ℝ`). -/
def Vec : Type := List ℝ

/-- A JSON payload dict, string keys to string sections
(`mapping[string, string]` in the specification). -/
def Payload : Type := List (String × String)

instance : DecidableEq Payload := by
  unfold Payload; infer_instance

noncomputable section

/-- Inner product of two vectors (FAISS `IndexFlatIP` similarity). -/
def dot (u v : Vec) : ℝ := (List.zipWith (fun a b => a * b) u v).sum

/-- Squared L2 norm. -/
def sqnorm (v : Vec) : ℝ := dot v v

/-- L2 norm. -/
def l2norm (v : Vec) : ℝ := Real.sqrt (sqnorm v)

/-- Embedding of `faiss.normalize_L2`: scales the vector to unit L2 norm; a
zero-norm vector is left unchanged (FAISS `fvec_renorm_L2` skips it). -/
def normalizeL2 (v : Vec) : Vec :=
  if l2norm v = 0 then v else v.map (fun a => a / l2norm v)

/-- Fold of `IndexFlatIP.search` over the remaining rows: keeps the
earliest row attaining the maximal inner product. `i` is the row id of
the head of the remaining list, `best` the best `(row_id, score)` so far. -/
def top1Aux (q : Vec) : ℕ → ℕ × ℝ → List Vec → ℕ × ℝ
  | _, best, [] => best
  | i, best, r :: rs =>
      top1Aux q (i + 1) (if best.2 < dot q r then (i, dot q r) else best) rs

/-- Embedding of `D, I = faiss_index.search(q, 1)` on an index:
the `(row_id, score)` of the top-1 inner-product neighbor, `none` on an
empty index. -/
def top1 (q : Vec) : List Vec → Option (ℕ × ℝ)
  | [] => none
  | r :: rs => some (top1Aux q 1 (0, dot q r) rs)

/-- Constant `CACHE_SIMILARITY_THRESHOLD` from `src/config.py`. -/
def CACHE_SIMILARITY_THRESHOLD : ℝ := 0.96

/-- Constant `CACHE_DIR` from `src/config.py`. -/
def CACHE_DIR : String := "search_cache_v6_text_commentary"

/-- The loaded in-memory cache state plus the entry-file store:
`faiss_index` (row vectors), `index_id_to_data`, `next_faiss_id`, and the
on-disk entry files as parsed payloads keyed by file path. -/
structure CacheState where
  index : List Vec
  mapping : List (ℕ × (String × String))
  nextId : ℕ
  store : List (String × Payload)

/-- External collaborators of the cache, fixed for a call:
the Gemini embedding (`get_embedding`), the Selenium live search
(`_perform_web_search_and_extract`), `time.time()` serialized, the
`"%.4f"` score formatter of the HIT status string, and the SHA-1 hex
digest of `normalize_query_for_filename`. -/
structure Env where
  embed : String → Option Vec
  liveSearch : String → Payload
  timestamp : String
  fmtScore : ℝ → String
  hashName : String → String

/-- Entry-file path built in `add_to_cache`:
`os.path.join(CACHE_DIR, query_hash + ".json")`. -/
def cachePath (env : Env) (query : String) : String :=
  CACHE_DIR ++ "/" ++ env.hashName query ++ ".json"

/-- Result of `get_from_cache`: the `(data, score)` pair it returns,
plus the array object the caller's `query_vector` variable refers to
after the call (normalized in place on the non-empty-index path). -/
structure LookupResult where
  data : Option Payload
  score : ℝ
  qvec : Vec

/-- Embedding of `get_from_cache(query, query_vector)` from `src/utils/cache_utils.py`
(lines 99–137), on an already-loaded state.  Empty index: return
`(None, -1.0)` untouched.  Otherwise normalize the query vector in
place, take the top-1 neighbor, and only when the score reaches the
threshold, the row id is mapped, and the mapped entry file exists,
return its payload with the bookkeeping keys popped and `_cache_status`
set to the HIT string; every other path falls through to `(None, -1.0)`. -/
def get_from_cache (env : Env) (σ : CacheState) (q : Vec) : LookupResult :=
  if σ.index.length = 0 then
    ⟨none, -1, q⟩
  else
    let q' := normalizeL2 q
    match top1 q' σ.index with
    | none => ⟨none, -1, q'⟩
    | some (nid, score) =>
      if CACHE_SIMILARITY_THRESHOLD ≤ score then
        match dictLookup nid σ.mapping with
        | some (_, path) =>
          match dictLookup path σ.store with
          | some cached =>
            let d1 := dictPop "_cached_original_query" cached
            let d2 := dictPop "_cache_timestamp" d1
            let d3 := dictInsert "_cache_status"
              ("HIT (Similarity: " ++ env.fmtScore score ++ ")") d2
            ⟨some d3, score, q'⟩
          | none => ⟨none, -1, q'⟩
        | none => ⟨none, -1, q'⟩
      else ⟨none, -1, q'⟩

/-- Embedding of `add_to_cache(query, query_vector, result_data)` from
`src/utils/cache_utils.py` (lines 139–170), on an already-loaded state:
writes the entry file (payload plus `_cached_original_query` and
`_cache_timestamp`) at the query-hash path, then, when a vector is
given, appends it to the index under row id `next_faiss_id`, records the
mapping entry, and bumps the counter (`save_faiss_cache` only writes the
files already modelled in the state).  Returns the new state and the
Python return value. -/
def add_to_cache (env : Env) (σ : CacheState) (query : String)
    (qv : Option Vec) (result : Payload) : CacheState × Bool :=
  let path := cachePath env query
  let toSave := dictInsert "_cache_timestamp" env.timestamp
                  (dictInsert "_cached_original_query" query result)
  let σ1 : CacheState := { σ with store := dictInsert path toSave σ.store }
  match qv with
  | some v =>
      ({ σ1 with
          index := σ1.index ++ [v]
          mapping := dictInsert σ.nextId (query, path) σ1.mapping
          nextId := σ.nextId + 1 }, true)
  | none => (σ1, false)

/-- Model of Python `str.strip()`: drops leading and trailing
whitespace characters (structurally recursive, so concrete instances
evaluate in the kernel, unlike `String.trim`). -/
def pyStrip (s : String) : String :=
  String.mk (((s.data.dropWhile Char.isWhitespace).reverse.dropWhile
    Char.isWhitespace).reverse)

/-- Result of a `get_search_results_with_cache` call: the returned
payload, the cache state after the call, and instrumentation counting
how many times `get_embedding` and `_perform_web_search_and_extract`
were invoked during the call. -/
structure ResolveResult where
  payload : Payload
  state : CacheState
  embedCalls : ℕ
  liveCalls : ℕ

/-- Embedding of `get_search_results_with_cache(query)` from `src/utils/web_search.py`
(lines 227–274), the cache coordinator (`resolve` in the specification),
over an already-loaded state `σ`.  Mirrors the Python control flow:
input validation, embedding (skip the cache on failure), cache lookup,
and on a miss a live search whose successful result is cached — note
that the vector handed to `add_to_cache` is the object `get_from_cache`
left in the caller's `query_vector` variable. -/
def get_search_results_with_cache (env : Env) (σ : CacheState)
    (query : String) : ResolveResult :=
  if query = "" then
    ⟨[("error", "Invalid or empty query received."), ("_cache_status", "Error")],
      σ, 0, 0⟩
  else
    let q := pyStrip query
    if q = "" then
      ⟨[("error", "Empty query received."), ("_cache_status", "Error")], σ, 0, 0⟩
    else
      match env.embed q with
      | none =>
          let live := env.liveSearch q
          ⟨dictInsert "_cache_status" "Live Search (Embedding Failed)" live,
            σ, 1, 1⟩
      | some qv =>
          let r := get_from_cache env σ qv
          match r.data with
          | some cached => ⟨cached, σ, 1, 0⟩
          | none =>
              let live := env.liveSearch q
              if dictContains "error" live = false ∧ live ≠ [] then
                let σ' := (add_to_cache env σ q (some r.qvec) live).1
                ⟨dictInsert "_cache_status" "Live Search (Cache Miss)" live,
                  σ', 1, 1⟩
              else if dictContains "error" live = true then
                ⟨dictInsert "_cache_status"
                    ("Live Search Failed ("
                      ++ ((dictLookup "error" live).getD "Unknown error") ++ ")")
                    live, σ, 1, 1⟩
              else
                ⟨[("error", "Live search returned empty results."),
                   ("_cache_status", "Live Search Failed (Empty)")], σ, 1, 1⟩

/-- Outcome of reading and parsing one on-disk artifact: the file is
missing, the file exists but reading or parsing it raises, or it parses
to a value. -/
inductive FileRead (α : Type) where
  | missing : FileRead α
  | corrupt : FileRead α
  | ok : α → FileRead α

/-- The on-disk cache artifacts `load_faiss_cache` reads: the FAISS
index file and the mapping JSON file (the latter parsing to the
`next_id` counter — `loaded_data.get("next_id", 0)` — and the
`mapping` object). -/
structure Disk where
  indexFile : FileRead (List Vec)
  mappingFile : FileRead (ℕ × List (ℕ × (String × String)))

/-- The freshly initialized empty cache (`IndexFlatIP(EMBEDDING_DIM)`,
empty mapping, counter 0); entry files on disk are untouched. -/
def freshState (store : List (String × Payload)) : CacheState :=
  ⟨[], [], 0, store⟩

/-- Embedding of `load_faiss_cache()` from `src/utils/cache_utils.py` (lines 45–86),
reading disk state `d` (entry files `store` are not read by the loader).
Both files must exist and parse, and the index size must equal the
mapping size, else every path — missing file, raised exception, or the
explicit consistency check — initializes a fresh empty cache.  The
`next_id` mismatch check only warns and changes nothing. -/
def load_faiss_cache (d : Disk) (store : List (String × Payload)) : CacheState :=
  match d.indexFile, d.mappingFile with
  | .ok vs, .ok (nid, m) =>
      if vs.length = m.length then ⟨vs, m, nid, store⟩ else freshState store
  | _, _ => freshState store

/-- Concrete one-dimensional unit vector. -/
def u1 : Vec := [(1 : ℝ)]

/-- Concrete one-dimensional vector of L2 norm 1/2 (not unit). -/
def uHalf : Vec := [(1 : ℝ) / 2]

/-- Concrete two-dimensional unit vector (0, 1). -/
def u01 : Vec := [(0 : ℝ), 1]

/-- Concrete two-dimensional unit vector (1, 0). -/
def u10 : Vec := [(1 : ℝ), 0]

/-- Concrete one-dimensional vector of L2 norm 24/25 = 0.96. -/
def v2425 : Vec := [(24 : ℝ) / 25]

/-- A successful live-search payload (no reserved `error` key). -/
def liveOk : Payload := [("Bing Search Results Page", "live text")]

/-- A failed live-search payload, as `_perform_web_search_and_extract`
produces it: the reserved `error` key is present. -/
def liveErr : Payload :=
  [("_cache_status", "Live Search Triggered"), ("error", "WebDriver start failed")]

/-- Environment whose embedding of every query is the unit vector `u1`
and whose live search succeeds with `liveOk`. -/
def envUnit : Env :=
  ⟨fun _ => some u1, fun _ => liveOk, "1700000000.0", fun _ => "0.9600", fun s => s⟩

/-- Environment whose embedding of every query is `uHalf` (norm 1/2)
and whose live search succeeds with `liveOk`. -/
def envHalf : Env :=
  ⟨fun _ => some uHalf, fun _ => liveOk, "1700000000.0", fun _ => "0.5000", fun s => s⟩

/-- Environment whose embedding of every query is `u01` and whose live
search succeeds with `liveOk`. -/
def envDim2 : Env :=
  ⟨fun _ => some u01, fun _ => liveOk, "1700000000.0", fun _ => "0.0000", fun s => s⟩

/-- Environment whose embedding of every query is `u1` and whose live
search fails with `liveErr`. -/
def envErr : Env :=
  ⟨fun _ => some u1, fun _ => liveErr, "1700000000.0", fun _ => "0.0000", fun s => s⟩

/-- Environment whose embedding call always fails (returns `None`). -/
def envNone : Env :=
  ⟨fun _ => none, fun _ => liveOk, "1700000000.0", fun _ => "0.0000", fun s => s⟩

/-- A loaded state whose single mapped entry references the entry file
`p0`, which is absent from the store: the stale-entry scenario. -/
def σStale : CacheState := ⟨[u1], [(0, ("q0", "p0"))], 1, []⟩

/-- A loaded state with one cached entry whose stored (raw) vector has
norm 24/25 = 0.96, and whose entry file is present. -/
def σHit : CacheState :=
  ⟨[v2425], [(0, ("q0", "p0"))], 1, [("p0", [("data", "cached text")])]⟩

/-- A consistent loaded state: one vector, one mapping record, counter 1. -/
def σOne : CacheState := ⟨[u1], [(0, ("a", "p"))], 1, []⟩

/-- On-disk state whose mapping file carries `next_id = 0` while the
index holds one vector: the sizes agree, so the load-time consistency
check passes, but the counter disagrees with the vector count. -/
def d6 : Disk := ⟨FileRead.ok [u10], FileRead.ok (0, [(0, ("a", "p"))])⟩

end

/-! ### Association-list (python dict) lemmas -/

theorem dictLookup_insert_self {κ α : Type} [DecidableEq κ] (k : κ) (v : α)
    (d : List (κ × α)) : dictLookup k (dictInsert k v d) = some v := by
  induction d with
  | nil => simp [dictInsert, dictLookup]
  | cons hd tl ih =>
      obtain ⟨k', v'⟩ := hd
      by_cases h : k' = k
      · simp [dictInsert, dictLookup, h]
      · simp [dictInsert, dictLookup, h, ih]

theorem dictLookup_insert_ne {κ α : Type} [DecidableEq κ] {k k' : κ} (v : α)
    (d : List (κ × α)) (h : k' ≠ k) :
    dictLookup k (dictInsert k' v d) = dictLookup k d := by
  induction d with
  | nil => simp [dictInsert, dictLookup, h]
  | cons hd tl ih =>
      obtain ⟨k'', v''⟩ := hd
      by_cases h2 : k'' = k'
      · subst h2
        simp [dictInsert, dictLookup, h]
      · by_cases h3 : k'' = k
        · simp [dictInsert, dictLookup, h2, h3, Ne.symm h]
        · simp [dictInsert, dictLookup, h2, h3, ih]

theorem dictContains_insert_of_contains {κ α : Type} [DecidableEq κ]
    {k : κ} (k' : κ) (v : α) {d : List (κ × α)}
    (h : dictContains k d = true) :
    dictContains k (dictInsert k' v d) = true := by
  by_cases he : k' = k
  · subst he
    simp [dictContains, dictLookup_insert_self]
  · simpa [dictContains, dictLookup_insert_ne v d he] using h

theorem length_dictInsert_of_none {κ α : Type} [DecidableEq κ]
    {k : κ} (v : α) {d : List (κ × α)} (h : dictLookup k d = none) :
    (dictInsert k v d).length = d.length + 1 := by
  induction d with
  | nil => simp [dictInsert]
  | cons hd tl ih =>
      obtain ⟨k', v'⟩ := hd
      by_cases h2 : k' = k
      · simp [dictLookup, h2] at h
      · simp only [dictLookup, if_neg h2] at h
        simp [dictInsert, h2, ih h]

theorem length_dictInsert_of_some {κ α : Type} [DecidableEq κ]
    {k : κ} (v : α) {d : List (κ × α)} {w : α}
    (h : dictLookup k d = some w) :
    (dictInsert k v d).length = d.length := by
  induction d with
  | nil => simp [dictLookup] at h
  | cons hd tl ih =>
      obtain ⟨k', v'⟩ := hd
      by_cases h2 : k' = k
      · simp [dictInsert, h2]
      · simp only [dictLookup, if_neg h2] at h
        simp [dictInsert, h2, ih h]

/-! ### Branch lemmas for `get_from_cache` -/

theorem get_from_cache_empty (env : Env) (σ : CacheState) (q : Vec)
    (h : σ.index = []) : get_from_cache env σ q = ⟨none, -1, q⟩ := by
  simp [get_from_cache, h]

theorem get_from_cache_qvec_of_nonempty (env : Env) (σ : CacheState) (q : Vec)
    (h : σ.index ≠ []) :
    (get_from_cache env σ q).qvec = normalizeL2 q := by
  have hl : σ.index.length ≠ 0 := by simpa using fun hh => h (List.length_eq_zero.mp hh)
  unfold get_from_cache
  rw [if_neg hl]
  dsimp only
  repeat' split
  all_goals rfl

theorem get_from_cache_below_threshold (env : Env) (σ : CacheState) (q : Vec)
    {nid : ℕ} {s : ℝ}
    (h : σ.index ≠ []) (htop : top1 (normalizeL2 q) σ.index = some (nid, s))
    (hs : s < CACHE_SIMILARITY_THRESHOLD) :
    get_from_cache env σ q = ⟨none, -1, normalizeL2 q⟩ := by
  have hl : σ.index.length ≠ 0 := by simpa using fun hh => h (List.length_eq_zero.mp hh)
  unfold get_from_cache
  rw [if_neg hl]
  simp only [htop]
  rw [if_neg (not_le.mpr hs)]

theorem get_from_cache_hit (env : Env) (σ : CacheState) (q : Vec)
    {nid : ℕ} {s : ℝ} {q0 path : String} {cached : Payload}
    (h : σ.index ≠ []) (htop : top1 (normalizeL2 q) σ.index = some (nid, s))
    (hs : CACHE_SIMILARITY_THRESHOLD ≤ s)
    (hmap : dictLookup nid σ.mapping = some (q0, path))
    (hst : dictLookup path σ.store = some cached) :
    get_from_cache env σ q =
      ⟨some (dictInsert "_cache_status"
          ("HIT (Similarity: " ++ env.fmtScore s ++ ")")
          (dictPop "_cache_timestamp" (dictPop "_cached_original_query" cached))),
        s, normalizeL2 q⟩ := by
  have hl : σ.index.length ≠ 0 := by simpa using fun hh => h (List.length_eq_zero.mp hh)
  unfold get_from_cache
  rw [if_neg hl]
  simp only [htop]
  rw [if_pos hs]
  simp only [hmap, hst]

theorem get_from_cache_stale (env : Env) (σ : CacheState) (q : Vec)
    {nid : ℕ} {s : ℝ} {q0 path : String}
    (h : σ.index ≠ []) (htop : top1 (normalizeL2 q) σ.index = some (nid, s))
    (hs : CACHE_SIMILARITY_THRESHOLD ≤ s)
    (hmap : dictLookup nid σ.mapping = some (q0, path))
    (hst : dictLookup path σ.store = none) :
    get_from_cache env σ q = ⟨none, -1, normalizeL2 q⟩ := by
  have hl : σ.index.length ≠ 0 := by simpa using fun hh => h (List.length_eq_zero.mp hh)
  unfold get_from_cache
  rw [if_neg hl]
  simp only [htop]
  rw [if_pos hs]
  simp only [hmap, hst]

/-! ### Branch lemmas for `get_search_results_with_cache` -/

theorem resolve_invalid (env : Env) (σ : CacheState) (query : String)
    (h : query = "") :
    get_search_results_with_cache env σ query =
      ⟨[("error", "Invalid or empty query received."), ("_cache_status", "Error")],
        σ, 0, 0⟩ := by
  simp [get_search_results_with_cache, h]

theorem resolve_blank (env : Env) (σ : CacheState) (query : String)
    (h1 : query ≠ "") (h2 : pyStrip query = "") :
    get_search_results_with_cache env σ query =
      ⟨[("error", "Empty query received."), ("_cache_status", "Error")], σ, 0, 0⟩ := by
  unfold get_search_results_with_cache
  rw [if_neg h1]
  dsimp only
  rw [if_pos h2]

theorem resolve_embed_fail (env : Env) (σ : CacheState) (query : String)
    (h1 : query ≠ "") (h2 : pyStrip query ≠ "")
    (h3 : env.embed (pyStrip query) = none) :
    get_search_results_with_cache env σ query =
      ⟨dictInsert "_cache_status" "Live Search (Embedding Failed)"
          (env.liveSearch (pyStrip query)), σ, 1, 1⟩ := by
  unfold get_search_results_with_cache
  rw [if_neg h1]
  dsimp only
  rw [if_neg h2, h3]

theorem resolve_hit (env : Env) (σ : CacheState) (query : String) {qv : Vec}
    {d : Payload}
    (h1 : query ≠ "") (h2 : pyStrip query ≠ "")
    (h3 : env.embed (pyStrip query) = some qv)
    (h4 : (get_from_cache env σ qv).data = some d) :
    get_search_results_with_cache env σ query = ⟨d, σ, 1, 0⟩ := by
  unfold get_search_results_with_cache
  rw [if_neg h1]
  dsimp only
  rw [if_neg h2, h3]
  dsimp only
  rw [h4]

theorem resolve_miss_success (env : Env) (σ : CacheState) (query : String)
    {qv : Vec}
    (h1 : query ≠ "") (h2 : pyStrip query ≠ "")
    (h3 : env.embed (pyStrip query) = some qv)
    (h4 : (get_from_cache env σ qv).data = none)
    (h5 : dictContains "error" (env.liveSearch (pyStrip query)) = false)
    (h6 : env.liveSearch (pyStrip query) ≠ []) :
    get_search_results_with_cache env σ query =
      ⟨dictInsert "_cache_status" "Live Search (Cache Miss)"
          (env.liveSearch (pyStrip query)),
        (add_to_cache env σ (pyStrip query) (some (get_from_cache env σ qv).qvec)
          (env.liveSearch (pyStrip query))).1, 1, 1⟩ := by
  unfold get_search_results_with_cache
  rw [if_neg h1]
  dsimp only
  rw [if_neg h2, h3]
  dsimp only
  rw [h4]
  dsimp only
  rw [if_pos ⟨h5, h6⟩]

theorem resolve_miss_error (env : Env) (σ : CacheState) (query : String)
    {qv : Vec}
    (h1 : query ≠ "") (h2 : pyStrip query ≠ "")
    (h3 : env.embed (pyStrip query) = some qv)
    (h4 : (get_from_cache env σ qv).data = none)
    (h5 : dictContains "error" (env.liveSearch (pyStrip query)) = true) :
    get_search_results_with_cache env σ query =
      ⟨dictInsert "_cache_status"
          ("Live Search Failed ("
            ++ ((dictLookup "error" (env.liveSearch (pyStrip query))).getD "Unknown error")
            ++ ")")
          (env.liveSearch (pyStrip query)), σ, 1, 1⟩ := by
  unfold get_search_results_with_cache
  rw [if_neg h1]
  dsimp only
  rw [if_neg h2, h3]
  dsimp only
  rw [h4]
  dsimp only
  rw [if_neg (by simp [h5]), if_pos h5]

theorem resolve_miss_empty (env : Env) (σ : CacheState) (query : String)
    {qv : Vec}
    (h1 : query ≠ "") (h2 : pyStrip query ≠ "")
    (h3 : env.embed (pyStrip query) = some qv)
    (h4 : (get_from_cache env σ qv).data = none)
    (h5 : env.liveSearch (pyStrip query) = []) :
    get_search_results_with_cache env σ query =
      ⟨[("error", "Live search returned empty results."),
         ("_cache_status", "Live Search Failed (Empty)")], σ, 1, 1⟩ := by
  unfold get_search_results_with_cache
  rw [if_neg h1]
  dsimp only
  rw [if_neg h2, h3]
  dsimp only
  rw [h4]
  dsimp only
  rw [if_neg (by simp [h5]), if_neg (by simp [h5, dictContains, dictLookup])]

/-! ### Evaluation lemmas for concrete vectors -/

theorem strip_ne_imp_ne {s : String} (h : pyStrip s ≠ "") : s ≠ "" := by
  intro hs
  exact h (by rw [hs]; rfl)

theorem dot_single (a b : ℝ) : dot [a] [b] = a * b := by
  simp [dot]

theorem dot_pair (a b c d : ℝ) : dot [a, b] [c, d] = a * c + b * d := by
  simp [dot]

theorem l2norm_single {a : ℝ} (h : 0 ≤ a) : l2norm [a] = a := by
  simp [l2norm, sqnorm, dot_single, Real.sqrt_mul_self h]

theorem normalizeL2_single {a : ℝ} (h : 0 < a) : normalizeL2 [a] = [1] := by
  simp [normalizeL2, l2norm_single h.le, h.ne', div_self h.ne']

theorem normalizeL2_u01 : normalizeL2 u01 = u01 := by
  have h : l2norm [(0 : ℝ), 1] = 1 := by
    simp [l2norm, sqnorm, dot_pair]
  simp [normalizeL2, u01, h]

theorem top1_single (q r : Vec) : top1 q [r] = some (0, dot q r) := rfl

theorem normalizeL2_u1 : normalizeL2 u1 = u1 := by
  have h := normalizeL2_single (a := (1 : ℝ)) one_pos
  simpa [u1] using h

theorem normalizeL2_uHalf : normalizeL2 uHalf = u1 := by
  have h := normalizeL2_single (a := (1 : ℝ) / 2) (by norm_num)
  simpa [uHalf, u1] using h

theorem top1_u1_u1 : top1 (normalizeL2 u1) [u1] = some (0, 1) := by
  rw [normalizeL2_u1, top1_single]
  norm_num [u1, dot_single]

theorem threshold_le_one : CACHE_SIMILARITY_THRESHOLD ≤ (1 : ℝ) := by
  norm_num [CACHE_SIMILARITY_THRESHOLD]

theorem half_lt_threshold : (1 : ℝ) / 2 < CACHE_SIMILARITY_THRESHOLD := by
  norm_num [CACHE_SIMILARITY_THRESHOLD]

theorem zero_lt_threshold : (0 : ℝ) < CACHE_SIMILARITY_THRESHOLD := by
  norm_num [CACHE_SIMILARITY_THRESHOLD]

/-! ### Claims -/

/-- C7: load is total and fail-safe.  For every on-disk state in which
the index file is missing or corrupt, or the mapping file is missing or
corrupt, or both parse but the index size differs from the mapping size,
`load_faiss_cache` yields the empty, usable cache (empty index, empty
mapping, counter 0) instead of propagating an error; totality is by
construction of the embedding, mirroring the catch-all exception
handlers in the source. -/
theorem C7_load_fail_safe (d : Disk) (store : List (String × Payload))
    (h : ∀ vs nid m, d.indexFile = FileRead.ok vs →
        d.mappingFile = FileRead.ok (nid, m) → vs.length ≠ m.length) :
    load_faiss_cache d store = freshState store := by
  rcases d with ⟨fi, fm⟩
  cases fi with
  | ok vs =>
      cases fm with
      | ok p =>
          obtain ⟨nid, m⟩ := p
          have hne := h vs nid m rfl rfl
          simp only [load_faiss_cache]
          rw [if_neg hne]
      | missing => rfl
      | corrupt => rfl
  | missing => cases fm <;> rfl
  | corrupt => cases fm <;> rfl

/-- Witness for C7: a disk with both files missing loads to the empty
cache. -/
theorem C7_witness :
    load_faiss_cache ⟨FileRead.missing, FileRead.missing⟩ [] = freshState [] := by
  exact C7_load_fail_safe ⟨FileRead.missing, FileRead.missing⟩ []
    (by intro vs nid m hv hm; cases hv)

/-- C8: a query that is blank after stripping whitespace is rejected
immediately: the returned payload carries the `error` key and the
`_cache_status` value `"Error"`, no embedding call and no live search is
performed, and the state (index, mapping, entry store) is untouched.
(A non-string query cannot be expressed in the typed embedding; the
Python guard for it takes the same branch.) -/
theorem C8_empty_query_rejected (env : Env) (σ : CacheState) (query : String)
    (h : pyStrip query = "") :
    (get_search_results_with_cache env σ query).state = σ ∧
    (get_search_results_with_cache env σ query).embedCalls = 0 ∧
    (get_search_results_with_cache env σ query).liveCalls = 0 ∧
    dictContains "error" (get_search_results_with_cache env σ query).payload
      = true ∧
    dictLookup "_cache_status" (get_search_results_with_cache env σ query).payload
      = some "Error" := by
  by_cases hq : query = ""
  · rw [resolve_invalid env σ query hq]
    refine ⟨rfl, rfl, rfl, ?_, ?_⟩ <;> (dsimp only; decide)
  · rw [resolve_blank env σ query hq h]
    refine ⟨rfl, rfl, rfl, ?_, ?_⟩ <;> (dsimp only; decide)

/-- Witness for C8: the whitespace-only query consisting of one space. -/
theorem C8_witness :
    pyStrip " " = "" ∧
    (get_search_results_with_cache envUnit (freshState []) " ").state
      = freshState [] ∧
    (get_search_results_with_cache envUnit (freshState []) " ").embedCalls = 0 ∧
    (get_search_results_with_cache envUnit (freshState []) " ").liveCalls = 0 := by
  have h := C8_empty_query_rejected envUnit (freshState []) " " (by rfl)
  exact ⟨by rfl, h.1, h.2.1, h.2.2.1⟩

/-- C9: embedding-failure fallback.  When the embedding call returns no
vector, the coordinator performs the live search, returns its payload
with the `"Live Search (Embedding Failed)"` status, and leaves the
index, mapping and entry store unmodified. -/
theorem C9_embedding_failure_fallback (env : Env) (σ : CacheState)
    (query : String)
    (h1 : pyStrip query ≠ "") (h2 : env.embed (pyStrip query) = none) :
    (get_search_results_with_cache env σ query).state = σ ∧
    (get_search_results_with_cache env σ query).liveCalls = 1 ∧
    (get_search_results_with_cache env σ query).payload
      = dictInsert "_cache_status" "Live Search (Embedding Failed)"
          (env.liveSearch (pyStrip query)) ∧
    dictLookup "_cache_status" (get_search_results_with_cache env σ query).payload
      = some "Live Search (Embedding Failed)" := by
  rw [resolve_embed_fail env σ query (strip_ne_imp_ne h1) h1 h2]
  exact ⟨rfl, rfl, rfl, dictLookup_insert_self _ _ _⟩

/-- Witness for C9: an environment whose embedding always fails. -/
theorem C9_witness :
    pyStrip "query" ≠ "" ∧
    envNone.embed (pyStrip "query") = none ∧
    (get_search_results_with_cache envNone σStale "query").state = σStale ∧
    (get_search_results_with_cache envNone σStale "query").liveCalls = 1 ∧
    dictLookup "_cache_status"
      (get_search_results_with_cache envNone σStale "query").payload
      = some "Live Search (Embedding Failed)" := by
  have h := C9_embedding_failure_fallback envNone σStale "query"
    (by decide) rfl
  exact ⟨by decide, rfl, h.1, h.2.1, h.2.2.2⟩

/-- C5: a failed live search is never cached.  On a cache miss whose
live-search result carries the reserved `error` key, the index, the
mapping and the entry store are unchanged after the call, and the
failure payload is returned with a `"Live Search Failed (...)"` status. -/
theorem C5_failed_live_search_not_cached (env : Env) (σ : CacheState)
    (query : String) (qv : Vec)
    (h1 : pyStrip query ≠ "")
    (h2 : env.embed (pyStrip query) = some qv)
    (h3 : (get_from_cache env σ qv).data = none)
    (h4 : dictContains "error" (env.liveSearch (pyStrip query)) = true) :
    (get_search_results_with_cache env σ query).state.index = σ.index ∧
    (get_search_results_with_cache env σ query).state.mapping = σ.mapping ∧
    (get_search_results_with_cache env σ query).state.store = σ.store ∧
    (get_search_results_with_cache env σ query).payload
      = dictInsert "_cache_status"
          ("Live Search Failed ("
            ++ ((dictLookup "error" (env.liveSearch (pyStrip query))).getD
                  "Unknown error") ++ ")")
          (env.liveSearch (pyStrip query)) ∧
    dictLookup "_cache_status" (get_search_results_with_cache env σ query).payload
      = some ("Live Search Failed ("
          ++ ((dictLookup "error" (env.liveSearch (pyStrip query))).getD
                "Unknown error") ++ ")") := by
  rw [resolve_miss_error env σ query (strip_ne_imp_ne h1) h1 h2 h3 h4]
  exact ⟨rfl, rfl, rfl, rfl, dictLookup_insert_self _ _ _⟩

/-- Witness for C5: an environment whose live search fails, on a cold
cache (so the lookup misses); nothing is added to any component. -/
theorem C5_witness :
    dictContains "error" (envErr.liveSearch (pyStrip "query")) = true ∧
    (get_search_results_with_cache envErr (freshState []) "query").state.index
      = [] ∧
    (get_search_results_with_cache envErr (freshState []) "query").state.mapping
      = [] ∧
    (get_search_results_with_cache envErr (freshState []) "query").state.store
      = [] := by
  have h := C5_failed_live_search_not_cached envErr (freshState []) "query" u1
    (by decide) rfl
    (by rw [get_from_cache_empty envErr (freshState []) u1 rfl])
    (by decide)
  exact ⟨by decide, h.1, h.2.1, h.2.2.1⟩

/-- C10 (implicit frame effect): the cache lookup mutates its vector
argument in place.  On a non-empty index the caller's array is the
unit-normalized original after the call; on the empty-index path it is
untouched; and the vector the miss-handling step appends is exactly the
(shared, possibly normalized) array the lookup left behind. -/
theorem C10_lookup_normalizes_in_place (env : Env) (σ : CacheState) (q : Vec) :
    (σ.index = [] → (get_from_cache env σ q).qvec = q) ∧
    (σ.index ≠ [] → (get_from_cache env σ q).qvec = normalizeL2 q) ∧
    (∀ query : String, ∀ qv : Vec, pyStrip query ≠ "" →
      env.embed (pyStrip query) = some qv →
      (get_from_cache env σ qv).data = none →
      dictContains "error" (env.liveSearch (pyStrip query)) = false →
      env.liveSearch (pyStrip query) ≠ [] →
      (get_search_results_with_cache env σ query).state.index
        = σ.index ++ [(get_from_cache env σ qv).qvec]) := by
  refine ⟨?_, ?_, ?_⟩
  · intro h
    rw [get_from_cache_empty env σ q h]
  · intro h
    exact get_from_cache_qvec_of_nonempty env σ q h
  · intro query qv h1 h2 h3 h4 h5
    rw [resolve_miss_success env σ query (strip_ne_imp_ne h1) h1 h2 h3 h4 h5]
    dsimp only
    simp [add_to_cache]

/-- Witness for C10: empty-index path leaves `uHalf` untouched; the
non-empty path of state `σOne` normalizes it; the appended vector on a
cold-cache miss is the lookup's output array. -/
theorem C10_witness :
    (get_from_cache envHalf (freshState []) uHalf).qvec = uHalf ∧
    (get_from_cache envHalf σOne uHalf).qvec = normalizeL2 uHalf ∧
    (get_search_results_with_cache envHalf (freshState []) "q").state.index
      = [] ++ [(get_from_cache envHalf (freshState []) uHalf).qvec] := by
  refine ⟨(C10_lookup_normalizes_in_place envHalf (freshState []) uHalf).1 rfl,
    (C10_lookup_normalizes_in_place envHalf σOne uHalf).2.1 (by simp [σOne]),
    (C10_lookup_normalizes_in_place envHalf (freshState []) uHalf).2.2 "q" uHalf
      (by decide) rfl
      (by rw [get_from_cache_empty envHalf (freshState []) uHalf rfl])
      (by decide) (by decide)⟩

/-- C4: threshold decision on a non-empty index.  A top-1 score strictly
below 0.96 makes the lookup miss and the coordinator run the live
search; a score at or above 0.96 (equality included) takes the
cached-entry lookup branch: with the row mapped and the entry file
present, the cached payload is returned with a HIT status and no live
search runs. -/
theorem C4_threshold_decision (env : Env) (σ : CacheState) (query : String)
    (qv : Vec) (nid : ℕ) (s : ℝ)
    (h1 : pyStrip query ≠ "")
    (h2 : env.embed (pyStrip query) = some qv)
    (hne : σ.index ≠ [])
    (htop : top1 (normalizeL2 qv) σ.index = some (nid, s)) :
    (s < CACHE_SIMILARITY_THRESHOLD →
       (get_from_cache env σ qv).data = none ∧
       (get_search_results_with_cache env σ query).liveCalls = 1) ∧
    (CACHE_SIMILARITY_THRESHOLD ≤ s →
       ∀ q0 path cached,
         dictLookup nid σ.mapping = some (q0, path) →
         dictLookup path σ.store = some cached →
         (get_search_results_with_cache env σ query).liveCalls = 0 ∧
         dictLookup "_cache_status"
             (get_search_results_with_cache env σ query).payload
           = some ("HIT (Similarity: " ++ env.fmtScore s ++ ")")) := by
  constructor
  · intro hs
    have hmiss : (get_from_cache env σ qv).data = none := by
      rw [get_from_cache_below_threshold env σ qv hne htop hs]
    refine ⟨hmiss, ?_⟩
    cases hcb : dictContains "error" (env.liveSearch (pyStrip query)) with
    | false =>
        by_cases hle : env.liveSearch (pyStrip query) = []
        · rw [resolve_miss_empty env σ query (strip_ne_imp_ne h1) h1 h2 hmiss hle]
        · rw [resolve_miss_success env σ query (strip_ne_imp_ne h1) h1 h2 hmiss hcb hle]
    | true =>
        rw [resolve_miss_error env σ query (strip_ne_imp_ne h1) h1 h2 hmiss hcb]
  · intro hs q0 path cached hmap hst
    have hdata : (get_from_cache env σ qv).data
        = some (dictInsert "_cache_status"
            ("HIT (Similarity: " ++ env.fmtScore s ++ ")")
            (dictPop "_cache_timestamp"
              (dictPop "_cached_original_query" cached))) := by
      rw [get_from_cache_hit env σ qv hne htop hs hmap hst]
    rw [resolve_hit env σ query (strip_ne_imp_ne h1) h1 h2 hdata]
    exact ⟨rfl, dictLookup_insert_self _ _ _⟩

/-- Witness for C4: state `σHit` stores the raw vector `(24/25)` whose
inner product with the normalized probe embedding is exactly 0.96, the
threshold value: the call is a hit and performs no live search. -/
theorem C4_witness :
    CACHE_SIMILARITY_THRESHOLD ≤ (24 : ℝ) / 25 ∧
    (get_search_results_with_cache envUnit σHit "probe").liveCalls = 0 ∧
    dictLookup "_cache_status"
        (get_search_results_with_cache envUnit σHit "probe").payload
      = some ("HIT (Similarity: " ++ envUnit.fmtScore ((24 : ℝ) / 25) ++ ")") := by
  have hth : CACHE_SIMILARITY_THRESHOLD ≤ (24 : ℝ) / 25 := by
    norm_num [CACHE_SIMILARITY_THRESHOLD]
  have htop : top1 (normalizeL2 u1) σHit.index = some (0, (24 : ℝ) / 25) := by
    rw [normalizeL2_u1]
    show top1 u1 [v2425] = _
    rw [top1_single]
    norm_num [u1, v2425, dot_single]
  have h := (C4_threshold_decision envUnit σHit "probe" u1 0 ((24 : ℝ) / 25)
      (by decide) rfl (by simp [σHit]) htop).2 hth "q0" "p0"
      [("data", "cached text")] rfl rfl
  exact ⟨hth, h.1, h.2⟩

/-- C1 counterexample: in state `σStale` the probe scores 1 ≥ 0.96
against row 0, row 0 is mapped to the absent entry file `p0`, a live
search is performed — and yet after the call the mapping STILL contains
the matched row id 0: `get_from_cache` merely falls through when the
entry file is missing, no code removes the stale mapping entry, so the
claim that the mapping no longer contains the matched row id is false. -/
theorem C1_counterexample :
    dictLookup 0 σStale.mapping = some ("q0", "p0") ∧
    dictLookup "p0" σStale.store = none ∧
    top1 (normalizeL2 u1) σStale.index = some (0, 1) ∧
    CACHE_SIMILARITY_THRESHOLD ≤ (1 : ℝ) ∧
    (get_search_results_with_cache envUnit σStale "probe").liveCalls = 1 ∧
    dictContains 0
        (get_search_results_with_cache envUnit σStale "probe").state.mapping
      = true := by
  have htop : top1 (normalizeL2 u1) σStale.index = some (0, 1) := top1_u1_u1
  have hmiss : (get_from_cache envUnit σStale u1).data = none := by
    rw [get_from_cache_stale envUnit σStale u1 (by simp [σStale]) htop
      threshold_le_one rfl rfl]
  have hr := resolve_miss_success envUnit σStale "probe" (by decide) (by decide)
    rfl hmiss (by decide) (by decide)
  refine ⟨rfl, rfl, htop, threshold_le_one, ?_, ?_⟩
  · rw [hr]
  · rw [hr]
    dsimp only
    simp only [add_to_cache]
    exact dictContains_insert_of_contains _ _ (by decide)

/-- C1 amended: when the top-1 score meets the threshold, the row id is
mapped, but the referenced entry file is missing, the coordinator leaves
the stale mapping entry in place and performs a live search: after the
call the mapping still contains the matched row id. -/
theorem C1_stale_entry_fallthrough (env : Env) (σ : CacheState) (query : String)
    (qv : Vec) (nid : ℕ) (s : ℝ) (q0 path : String)
    (h1 : pyStrip query ≠ "")
    (h2 : env.embed (pyStrip query) = some qv)
    (hne : σ.index ≠ [])
    (htop : top1 (normalizeL2 qv) σ.index = some (nid, s))
    (hs : CACHE_SIMILARITY_THRESHOLD ≤ s)
    (hmap : dictLookup nid σ.mapping = some (q0, path))
    (hst : dictLookup path σ.store = none) :
    (get_search_results_with_cache env σ query).liveCalls = 1 ∧
    dictContains nid
        (get_search_results_with_cache env σ query).state.mapping = true := by
  have hmiss : (get_from_cache env σ qv).data = none := by
    rw [get_from_cache_stale env σ qv hne htop hs hmap hst]
  have hcont : dictContains nid σ.mapping = true := by
    simp [dictContains, hmap]
  cases hcb : dictContains "error" (env.liveSearch (pyStrip query)) with
  | false =>
      by_cases hle : env.liveSearch (pyStrip query) = []
      · rw [resolve_miss_empty env σ query (strip_ne_imp_ne h1) h1 h2 hmiss hle]
        exact ⟨rfl, hcont⟩
      · rw [resolve_miss_success env σ query (strip_ne_imp_ne h1) h1 h2 hmiss hcb hle]
        refine ⟨rfl, ?_⟩
        dsimp only
        simp only [add_to_cache]
        exact dictContains_insert_of_contains _ _ hcont
  | true =>
      rw [resolve_miss_error env σ query (strip_ne_imp_ne h1) h1 h2 hmiss hcb]
      exact ⟨rfl, hcont⟩

/-- Witness for C1 (amended): the `σStale` scenario, where the matched
row id 0 survives the call. -/
theorem C1_witness :
    pyStrip "probe" ≠ "" ∧
    (get_search_results_with_cache envUnit σStale "probe").liveCalls = 1 ∧
    dictContains 0
        (get_search_results_with_cache envUnit σStale "probe").state.mapping
      = true := by
  have h := C1_stale_entry_fallthrough envUnit σStale "probe" u1 0 1 "q0" "p0"
    (by decide) rfl (by simp [σStale]) top1_u1_u1 threshold_le_one rfl rfl
  exact ⟨by decide, h.1, h.2⟩

/-- C2, evaluated at the failing input: with an empty index at lookup
time, `get_from_cache` returns before `faiss.normalize_L2` runs, and the
miss-handling step then appends the raw embedding `uHalf`, whose squared
L2 norm is 1/4, not 1 — so the very first vector stored in the index is
not unit-normalized, contradicting the claimed invariant. -/
theorem C2_first_vector_not_normalized :
    (get_search_results_with_cache envHalf (freshState []) "q").state.index
      = [uHalf] ∧
    sqnorm uHalf = 1 / 4 ∧ sqnorm uHalf ≠ 1 := by
  have hmiss : (get_from_cache envHalf (freshState []) uHalf).data = none := by
    rw [get_from_cache_empty envHalf (freshState []) uHalf rfl]
  have hqvec : (get_from_cache envHalf (freshState []) uHalf).qvec = uHalf := by
    rw [get_from_cache_empty envHalf (freshState []) uHalf rfl]
  have hr := resolve_miss_success envHalf (freshState []) "q" (by decide)
    (by decide) rfl hmiss (by decide) (by decide)
  have hsq : sqnorm uHalf = 1 / 4 := by
    norm_num [sqnorm, uHalf, dot_single]
  refine ⟨?_, hsq, by rw [hsq]; norm_num⟩
  rw [hr]
  dsimp only
  rw [hqvec]
  simp [add_to_cache, freshState]

/-- C3, evaluated at the failing input: starting from an empty cache
with an embedding of norm 1/2, the first resolve performs a live search
and caches the raw vector; the second resolve of the character-identical
query normalizes its own copy to unit length, scores only 1/2 < 0.96
against the stored raw vector, and therefore performs a SECOND live
search and returns a miss status instead of the claimed hit. -/
theorem C3_identical_requery_not_hit :
    (get_search_results_with_cache envHalf (freshState []) "q").liveCalls = 1 ∧
    (get_search_results_with_cache envHalf
        (get_search_results_with_cache envHalf (freshState []) "q").state
        "q").liveCalls = 1 ∧
    dictLookup "_cache_status"
        (get_search_results_with_cache envHalf
          (get_search_results_with_cache envHalf (freshState []) "q").state
          "q").payload
      = some "Live Search (Cache Miss)" := by
  have hmiss1 : (get_from_cache envHalf (freshState []) uHalf).data = none := by
    rw [get_from_cache_empty envHalf (freshState []) uHalf rfl]
  have hqvec : (get_from_cache envHalf (freshState []) uHalf).qvec = uHalf := by
    rw [get_from_cache_empty envHalf (freshState []) uHalf rfl]
  have hr1 := resolve_miss_success envHalf (freshState []) "q" (by decide)
    (by decide) rfl hmiss1 (by decide) (by decide)
  have hidx : (get_search_results_with_cache envHalf (freshState []) "q").state.index
      = [uHalf] := by
    rw [hr1]
    dsimp only
    rw [hqvec]
    simp [add_to_cache, freshState]
  have hne2 : (get_search_results_with_cache envHalf (freshState []) "q").state.index
      ≠ [] := by
    rw [hidx]
    simp
  have htop2 : top1 (normalizeL2 uHalf)
      (get_search_results_with_cache envHalf (freshState []) "q").state.index
      = some (0, (1 : ℝ) / 2) := by
    rw [hidx, normalizeL2_uHalf, top1_single]
    norm_num [u1, uHalf, dot_single]
  have hmiss2 : (get_from_cache envHalf
      (get_search_results_with_cache envHalf (freshState []) "q").state
      uHalf).data = none := by
    rw [get_from_cache_below_threshold envHalf _ uHalf hne2 htop2 half_lt_threshold]
  have hr2 := resolve_miss_success envHalf
    (get_search_results_with_cache envHalf (freshState []) "q").state
    "q" (by decide) (by decide) rfl hmiss2 (by decide) (by decide)
  refine ⟨by rw [hr1], by rw [hr2], ?_⟩
  rw [hr2]
  dsimp only
  exact dictLookup_insert_self _ _ _

/-- C6 counterexample: the disk state `d6` (one vector, one mapping
record, persisted counter `next_id = 0`) passes the load-time
consistency check, which compares only index size against mapping size
and merely warns about the counter.  The next miss-handling append then
assigns row id `next_faiss_id = 0`, which is NOT the vector count before
insertion (1), and overwrites the existing mapping key 0: afterwards the
index holds 2 vectors but the mapping only 1 record, falsifying the
claimed invariant. -/
theorem C6_counterexample :
    (load_faiss_cache d6 []).index.length = 1 ∧
    (load_faiss_cache d6 []).mapping.length = 1 ∧
    (load_faiss_cache d6 []).nextId = 0 ∧
    (get_search_results_with_cache envDim2 (load_faiss_cache d6 []) "q").state.index.length
      = 2 ∧
    (get_search_results_with_cache envDim2 (load_faiss_cache d6 []) "q").state.mapping.length
      = 1 := by
  have hload : load_faiss_cache d6 [] =
      CacheState.mk [u10] [(0, ("a", "p"))] 0 [] := by
    simp [load_faiss_cache, d6]
  have htop : top1 (normalizeL2 u01) (load_faiss_cache d6 []).index
      = some (0, 0) := by
    rw [hload, normalizeL2_u01]
    show top1 u01 [u10] = _
    rw [top1_single]
    norm_num [u01, u10, dot_pair]
  have hne : (load_faiss_cache d6 []).index ≠ [] := by
    rw [hload]
    simp
  have hmiss : (get_from_cache envDim2 (load_faiss_cache d6 []) u01).data
      = none := by
    rw [get_from_cache_below_threshold envDim2 _ u01 hne htop zero_lt_threshold]
  have hr := resolve_miss_success envDim2 (load_faiss_cache d6 []) "q"
    (by decide) (by decide) rfl hmiss (by decide) (by decide)
  refine ⟨by rw [hload]; rfl, by rw [hload]; rfl, by rw [hload], ?_, ?_⟩
  · rw [hr]
    dsimp only
    simp only [add_to_cache]
    rw [hload]
    simp
  · rw [hr]
    dsimp only
    simp only [add_to_cache]
    rw [hload]
    dsimp only
    have hlk : dictLookup (0 : ℕ) [(0, (("a" : String), ("p" : String)))]
        = some ("a", "p") := rfl
    rw [length_dictInsert_of_some _ hlk]
    rfl

/-- C6 amended: after every load, the mapping record count equals the
vector count.  An append assigns the new record the row id held by the
persisted `next_faiss_id` counter (not the vector count); provided that
counter is not already a mapping key and the sizes agreed before — as
holds in every state the program itself saves, where the counter equals
the vector count — the append preserves the size equality, and the
assigned row id then equals the vector count before the insertion. -/
theorem C6_size_invariant_conditional (d : Disk)
    (store : List (String × Payload)) (env : Env) (σ : CacheState)
    (query : String) (v : Vec) (result : Payload)
    (h1 : σ.nextId = σ.index.length)
    (h2 : dictLookup σ.nextId σ.mapping = none)
    (h3 : σ.mapping.length = σ.index.length) :
    (load_faiss_cache d store).mapping.length
      = (load_faiss_cache d store).index.length ∧
    (add_to_cache env σ query (some v) result).1.index.length
      = σ.index.length + 1 ∧
    (add_to_cache env σ query (some v) result).1.mapping.length
      = (add_to_cache env σ query (some v) result).1.index.length ∧
    dictLookup σ.nextId (add_to_cache env σ query (some v) result).1.mapping
      = some (query, cachePath env query) ∧
    σ.nextId = σ.index.length := by
  refine ⟨?_, ?_, ?_, ?_, h1⟩
  · rcases d with ⟨fi, fm⟩
    cases fi with
    | ok vs =>
        cases fm with
        | ok p =>
            obtain ⟨nid, m⟩ := p
            simp only [load_faiss_cache]
            by_cases hh : vs.length = m.length
            · rw [if_pos hh]
              exact hh.symm
            · rw [if_neg hh]
              rfl
        | missing => rfl
        | corrupt => rfl
    | missing => cases fm <;> rfl
    | corrupt => cases fm <;> rfl
  · simp [add_to_cache]
  · simp [add_to_cache, length_dictInsert_of_none _ h2, h3]
  · simp only [add_to_cache]
    exact dictLookup_insert_self _ _ _

/-- Witness for C6 (amended): appending to the consistent state `σOne`
(one vector, one record, counter 1) keeps sizes equal and assigns the
new record row id 1 = vector count before insertion. -/
theorem C6_witness :
    (add_to_cache envUnit σOne "q" (some u1) liveOk).1.index.length = 2 ∧
    (add_to_cache envUnit σOne "q" (some u1) liveOk).1.mapping.length = 2 ∧
    dictLookup σOne.nextId
        (add_to_cache envUnit σOne "q" (some u1) liveOk).1.mapping
      = some ("q", cachePath envUnit "q") ∧
    σOne.nextId = σOne.index.length := by
  have h := C6_size_invariant_conditional d6 [] envUnit σOne "q" u1 liveOk
    rfl rfl rfl
  refine ⟨h.2.1, ?_, h.2.2.2.1, h.2.2.2.2⟩
  rw [h.2.2.1, h.2.1]
  norm_num [σOne]

end SportsCache
